import Mathlib

/-!
Shallow embedding of `tensorflow_datasets/scripts/cli/croissant.py`.

The unit is a command-line adapter: it normalises its arguments (truthiness
checks on `record_sets` and `mapping`, a `json.loads` parse of the mapping
text) and delegates to the `CroissantBuilder` collaborator.  The collaborator
itself is out of scope and is modelled as a pair of abstract functions; the
adapter's interaction with it is recorded as a trace of events.
-/

namespace Croissant

/-- JSON values as produced by the Python `json` module.  Numeric literals are
kept as their source lexemes (the adapter never inspects them, so no float
semantics are needed); objects keep Python `dict` semantics: first-occurrence
key order, last value wins. -/
inductive JsonValue where
  | null : JsonValue
  | bool : Bool → JsonValue
  | num : String → JsonValue
  | str : String → JsonValue
  | arr : List JsonValue → JsonValue
  | obj : List (String × JsonValue) → JsonValue

/-- The opening curly brace character. -/
def lbraceChar : Char := Char.ofNat 123

/-- The closing curly brace character. -/
def rbraceChar : Char := Char.ofNat 125

/-- JSON whitespace, as in Python's `json` module: space, tab, newline,
carriage return. -/
def isJsonWs (c : Char) : Bool :=
  c = ' ' || c = '\t' || c = '\n' || c = '\r'

/-- Drop leading JSON whitespace. -/
def skipWs : List Char → List Char
  | [] => []
  | c :: cs => if isJsonWs c then skipWs cs else c :: cs

/-- Value of a hexadecimal digit. -/
def hexVal (c : Char) : Option Nat :=
  if c.isDigit then some (c.toNat - 48)
  else if 'a' ≤ c ∧ c ≤ 'f' then some (c.toNat - 87)
  else if 'A' ≤ c ∧ c ≤ 'F' then some (c.toNat - 55)
  else none

/-- Strip a literal character sequence from the front of the input. -/
def stripLit : List Char → List Char → Option (List Char)
  | [], cs => some cs
  | _ :: _, [] => none
  | p :: ps, c :: cs => if c = p then stripLit ps cs else none

/-- Parse the body of a JSON string (the opening quote has been consumed),
accumulating decoded characters in reverse.  Follows Python's strict mode:
raw control characters are rejected, and only the JSON escapes
(quote, backslash, slash, b, f, n, r, t, uXXXX) are accepted. -/
def parseStringBody (acc : List Char) : List Char → Except String (String × List Char)
  | [] => Except.error "Unterminated string"
  | c :: cs =>
    if c = '\"' then Except.ok (String.mk acc.reverse, cs)
    else if c = '\\' then
      match cs with
      | [] => Except.error "Unterminated string"
      | e :: cs2 =>
        if e = '\"' then parseStringBody ('\"' :: acc) cs2
        else if e = '\\' then parseStringBody ('\\' :: acc) cs2
        else if e = '/' then parseStringBody ('/' :: acc) cs2
        else if e = 'b' then parseStringBody (Char.ofNat 8 :: acc) cs2
        else if e = 'f' then parseStringBody (Char.ofNat 12 :: acc) cs2
        else if e = 'n' then parseStringBody ('\n' :: acc) cs2
        else if e = 'r' then parseStringBody ('\r' :: acc) cs2
        else if e = 't' then parseStringBody ('\t' :: acc) cs2
        else if e = 'u' then
          match cs2 with
          | h1 :: h2 :: h3 :: h4 :: cs3 =>
            match hexVal h1, hexVal h2, hexVal h3, hexVal h4 with
            | some a, some b, some c2, some d =>
                parseStringBody (Char.ofNat (((a * 16 + b) * 16 + c2) * 16 + d) :: acc) cs3
            | _, _, _, _ => Except.error "Invalid hex escape"
          | _ => Except.error "Invalid hex escape"
        else Except.error "Invalid escape"
    else if c.toNat < 32 then Except.error "Invalid control character"
    else parseStringBody (c :: acc) cs

/-- Split off a maximal run of decimal digits. -/
def takeDigits : List Char → List Char × List Char
  | [] => ([], [])
  | c :: cs =>
    if c.isDigit then
      let (ds, rest) := takeDigits cs
      (c :: ds, rest)
    else ([], c :: cs)

/-- Integer part of a JSON number: `0` or a nonzero digit followed by digits
(matching Python's number regular expression). -/
def parseIntPart : List Char → Except String (List Char × List Char)
  | [] => Except.error "Expecting digit"
  | c :: cs =>
    if c = '0' then Except.ok ([c], cs)
    else if c.isDigit then
      let (ds, rest) := takeDigits cs
      Except.ok (c :: ds, rest)
    else Except.error "Expecting digit"

/-- Optional fraction part `.digits`; if the dot is not followed by a digit the
part fails to match and nothing is consumed. -/
def parseFracPart (cs : List Char) : List Char × List Char :=
  match cs with
  | '.' :: cs2 =>
    (match takeDigits cs2 with
     | ([], _) => ([], cs)
     | (ds, rest) => ('.' :: ds, rest))
  | _ => ([], cs)

/-- Optional exponent part `e[+-]digits`; if no digit follows, nothing is
consumed. -/
def parseExpPart (cs : List Char) : List Char × List Char :=
  match cs with
  | [] => ([], cs)
  | e :: rest =>
    if e = 'e' ∨ e = 'E' then
      match rest with
      | [] => ([], cs)
      | s :: rest2 =>
        if s = '+' ∨ s = '-' then
          match takeDigits rest2 with
          | ([], _) => ([], cs)
          | (ds, r) => (e :: s :: ds, r)
        else
          match takeDigits rest with
          | ([], _) => ([], cs)
          | (ds, r) => (e :: ds, r)
    else ([], cs)

/-- Parse a JSON number starting at a `-` or a digit, keeping the lexeme. -/
def parseNumber (cs : List Char) : Except String (JsonValue × List Char) :=
  let (sign, cs1) :=
    match cs with
    | '-' :: rest => (['-'], rest)
    | _ => (([] : List Char), cs)
  match parseIntPart cs1 with
  | Except.error e => Except.error e
  | Except.ok (ipart, cs2) =>
    let (fpart, cs3) := parseFracPart cs2
    let (epart, cs4) := parseExpPart cs3
    Except.ok (JsonValue.num (String.mk (sign ++ ipart ++ fpart ++ epart)), cs4)

/-- Insert a key into an association list with Python `dict` semantics: an
existing key keeps its position but its value is replaced; a new key is
appended. -/
def dictInsert (kvs : List (String × JsonValue)) (k : String) (v : JsonValue) :
    List (String × JsonValue) :=
  match kvs with
  | [] => [(k, v)]
  | (k0, v0) :: rest => if k0 = k then (k0, v) :: rest else (k0, v0) :: dictInsert rest k v

mutual

/-- Parse one JSON value (Python `json.loads` grammar, including the default
`NaN`, `Infinity` and `-Infinity` constants).  `fuel` bounds recursion and is
chosen large enough for the whole input in `jsonLoads`. -/
def parseValue : Nat → List Char → Except String (JsonValue × List Char)
  | 0, _ => Except.error "Recursion limit"
  | Nat.succ fuel, cs =>
    match skipWs cs with
    | [] => Except.error "Expecting value"
    | c :: cs1 =>
      if c = '\"' then
        match parseStringBody [] cs1 with
        | Except.error e => Except.error e
        | Except.ok (s, rest) => Except.ok (JsonValue.str s, rest)
      else if c = lbraceChar then parseObjectBody fuel cs1
      else if c = '[' then parseArrayBody fuel cs1
      else if c = 'n' then
        match stripLit ['u', 'l', 'l'] cs1 with
        | some rest => Except.ok (JsonValue.null, rest)
        | none => Except.error "Expecting value"
      else if c = 't' then
        match stripLit ['r', 'u', 'e'] cs1 with
        | some rest => Except.ok (JsonValue.bool true, rest)
        | none => Except.error "Expecting value"
      else if c = 'f' then
        match stripLit ['a', 'l', 's', 'e'] cs1 with
        | some rest => Except.ok (JsonValue.bool false, rest)
        | none => Except.error "Expecting value"
      else if c = 'N' then
        match stripLit ['a', 'N'] cs1 with
        | some rest => Except.ok (JsonValue.num "NaN", rest)
        | none => Except.error "Expecting value"
      else if c = 'I' then
        match stripLit ['n', 'f', 'i', 'n', 'i', 't', 'y'] cs1 with
        | some rest => Except.ok (JsonValue.num "Infinity", rest)
        | none => Except.error "Expecting value"
      else if c = '-' then
        match stripLit ['I', 'n', 'f', 'i', 'n', 'i', 't', 'y'] cs1 with
        | some rest => Except.ok (JsonValue.num "-Infinity", rest)
        | none => parseNumber (c :: cs1)
      else if c.isDigit then parseNumber (c :: cs1)
      else Except.error "Expecting value"

/-- Parse an object body: the opening brace has been consumed. -/
def parseObjectBody : Nat → List Char → Except String (JsonValue × List Char)
  | 0, _ => Except.error "Recursion limit"
  | Nat.succ fuel, cs =>
    match skipWs cs with
    | [] => Except.error "Expecting property name enclosed in double quotes"
    | c :: cs1 =>
      if c = rbraceChar then Except.ok (JsonValue.obj [], cs1)
      else if c = '\"' then parseMembers fuel [] cs1
      else Except.error "Expecting property name enclosed in double quotes"

/-- Parse object members; the input starts right after the opening quote of
the next key.  `acc` is the dictionary built so far. -/
def parseMembers : Nat → List (String × JsonValue) → List Char →
    Except String (JsonValue × List Char)
  | 0, _, _ => Except.error "Recursion limit"
  | Nat.succ fuel, acc, cs =>
    match parseStringBody [] cs with
    | Except.error e => Except.error e
    | Except.ok (k, rest) =>
      match skipWs rest with
      | ':' :: rest2 =>
        (match parseValue fuel rest2 with
         | Except.error e => Except.error e
         | Except.ok (v, rest3) =>
           match skipWs rest3 with
           | [] => Except.error "Expecting comma delimiter"
           | c :: rest4 =>
             if c = rbraceChar then Except.ok (JsonValue.obj (dictInsert acc k v), rest4)
             else if c = ',' then
               match skipWs rest4 with
               | [] => Except.error "Expecting property name enclosed in double quotes"
               | q :: rest5 =>
                 if q = '\"' then parseMembers fuel (dictInsert acc k v) rest5
                 else Except.error "Expecting property name enclosed in double quotes"
             else Except.error "Expecting comma delimiter")
      | _ => Except.error "Expecting colon delimiter"

/-- Parse an array body: the opening bracket has been consumed. -/
def parseArrayBody : Nat → List Char → Except String (JsonValue × List Char)
  | 0, _ => Except.error "Recursion limit"
  | Nat.succ fuel, cs =>
    match skipWs cs with
    | [] => Except.error "Expecting value"
    | c :: cs1 =>
      if c = ']' then Except.ok (JsonValue.arr [], cs1)
      else parseItems fuel [] cs

/-- Parse array items, accumulating in reverse. -/
def parseItems : Nat → List JsonValue → List Char → Except String (JsonValue × List Char)
  | 0, _, _ => Except.error "Recursion limit"
  | Nat.succ fuel, acc, cs =>
    match parseValue fuel cs with
    | Except.error e => Except.error e
    | Except.ok (v, rest) =>
      match skipWs rest with
      | ',' :: rest2 => parseItems fuel (v :: acc) rest2
      | ']' :: rest2 => Except.ok (JsonValue.arr (v :: acc).reverse, rest2)
      | _ => Except.error "Expecting comma delimiter"

end

/-- The embedding of Python's `json.loads`: parse one document, then require
only whitespace to remain (else `Extra data`).  The fuel bound exceeds any
possible recursion on the given input. -/
def jsonLoads (s : String) : Except String JsonValue :=
  match parseValue (4 * s.length + 16) s.data with
  | Except.error e => Except.error e
  | Except.ok (v, rest) =>
    match skipWs rest with
    | [] => Except.ok v
    | _ => Except.error "Extra data"

/-- A Python value that the local variable `mapping` can hold inside
`prepare_croissant_builder`: the absent value `None`, the unparsed string it
started as (reachable only for the falsy empty string, which skips parsing),
or the value returned by `json.loads`. -/
inductive PyVal where
  | none : PyVal
  | str : String → PyVal
  | json : JsonValue → PyVal

/-- The keyword arguments with which the `CroissantBuilder` collaborator is
constructed (line 127-133 of the source). -/
structure CroissantBuilderArgs where
  jsonld : String
  record_set_ids : Option (List String)
  file_format : String
  data_dir : String
  mapping : PyVal

/-- One observable interaction with the collaborator: a constructor call with
its arguments, or a call to `download_and_prepare`. -/
inductive CollabEvent where
  | construct : CroissantBuilderArgs → CollabEvent
  | downloadAndPrepare : CollabEvent

/-- An error escaping `prepare_croissant_builder`: either the `ValueError` the
adapter itself raises for an unparsable mapping, or an error raised by the
collaborator (of an arbitrary type `ε`), carried unchanged. -/
inductive PrepErr (ε : Type) where
  | valueError : String → PrepErr ε
  | collab : ε → PrepErr ε

/-- Python truthiness of `record_sets : Sequence[str] | None`: `None` and the
empty sequence are falsy. -/
def seqTruthy : Option (List String) → Bool
  | Option.none => false
  | Option.some l => !l.isEmpty

/-- The `if not record_sets: record_sets = None` normalisation
(lines 119-120). -/
def normRecordSets (rs : Option (List String)) : Option (List String) :=
  if seqTruthy rs then rs else Option.none

/-- The message of the `ValueError` raised on a mapping parse failure
(line 126): an f-string that interpolates the original mapping text. -/
def mappingErrorMsg (s : String) : String :=
  "Error parsing mapping parameter: " ++ s

/-- The `if mapping: mapping = json.loads(mapping)` step (lines 122-126).
`None` and the empty string are falsy and skip parsing; a non-empty string is
parsed, and a `json.JSONDecodeError` is turned into a `ValueError` whose
message embeds the original text. -/
def resolveMapping : Option String → Except String PyVal
  | Option.none => Except.ok PyVal.none
  | Option.some s =>
    if s = "" then Except.ok (PyVal.str s)
    else
      match jsonLoads s with
      | Except.ok v => Except.ok (PyVal.json v)
      | Except.error _ => Except.error (mappingErrorMsg s)

/-- The arguments the adapter hands to the collaborator's constructor, after
normalisation. -/
def builtArgs (jsonld : String) (record_sets : Option (List String))
    (out_file_format : String) (out_dir : String) (m : PyVal) :
    CroissantBuilderArgs :=
  { jsonld := jsonld, record_set_ids := normRecordSets record_sets,
    file_format := out_file_format, data_dir := out_dir, mapping := m }

/-- The embedding of `prepare_croissant_builder` (lines 98-135).  The
collaborator is abstract: `CroissantBuilder` models its constructor (which may
raise an error of type `ε` or return a builder of type `β`) and
`download_and_prepare` its preparation method.  The result pairs the trace of
collaborator interactions with the outcome: `Except.ok ()` models normal
completion (the Python function returns `None`), `Except.error` a raised
exception. -/
def prepare_croissant_builder {β ε : Type}
    (CroissantBuilder : CroissantBuilderArgs → Except ε β)
    (download_and_prepare : β → Except ε Unit)
    (jsonld : String) (record_sets : Option (List String))
    (out_file_format : String) (out_dir : String) (mapping : Option String) :
    List CollabEvent × Except (PrepErr ε) Unit :=
  match resolveMapping mapping with
  | Except.error msg => ([], Except.error (PrepErr.valueError msg))
  | Except.ok m =>
    let args := builtArgs jsonld record_sets out_file_format out_dir m
    match CroissantBuilder args with
    | Except.error e =>
        ([CollabEvent.construct args], Except.error (PrepErr.collab e))
    | Except.ok b =>
      match download_and_prepare b with
      | Except.error e =>
          ([CollabEvent.construct args, CollabEvent.downloadAndPrepare],
           Except.error (PrepErr.collab e))
      | Except.ok _ =>
          ([CollabEvent.construct args, CollabEvent.downloadAndPrepare],
           Except.ok ())

/-- The argument record produced by the argument-parsing layer for the
`build_croissant` subcommand. -/
structure ParsedArgs where
  jsonld : String
  record_sets : Option (List String)
  file_format : String
  out_dir : String
  mapping : Option String

/-- Modelled from the spec: the `--file_format` flag is declared with
`choices=[f.value for f in file_adapters.FileFormat]` (lines 46-52), but the
`FileFormat` enumeration lives in `tensorflow_datasets.core.file_adapters`,
which is not part of this unit's source; the spec describes it only as a
closed, externally-defined set of supported format names.  The model
therefore takes the enumeration as an explicit list and reproduces argparse's
`choices` check: a value outside the list is rejected before the subcommand
function runs, a value inside it is forwarded untouched. -/
def parseBuildCroissantArgs (file_format_choices : List String)
    (jsonld : String) (file_format : String)
    (record_sets : Option (List String)) (out_dir : String)
    (mapping : Option String) : Except String ParsedArgs :=
  if file_format_choices.contains file_format then
    Except.ok { jsonld := jsonld, record_sets := record_sets,
                file_format := file_format, out_dir := out_dir,
                mapping := mapping }
  else
    Except.error ("argument --file_format: invalid choice: " ++ file_format)

/-- The `build_croissant` subcommand end to end: argparse validation of
`--file_format` followed by the `subparser_fn` dispatch of
`register_subparser` (lines 87-95), which forwards `args.file_format` as
`out_file_format`. -/
def runBuildCroissant {β ε : Type}
    (CroissantBuilder : CroissantBuilderArgs → Except ε β)
    (download_and_prepare : β → Except ε Unit)
    (file_format_choices : List String)
    (jsonld : String) (file_format : String)
    (record_sets : Option (List String)) (out_dir : String)
    (mapping : Option String) :
    Except String (List CollabEvent × Except (PrepErr ε) Unit) :=
  match parseBuildCroissantArgs file_format_choices jsonld file_format
      record_sets out_dir mapping with
  | Except.error e => Except.error e
  | Except.ok a =>
      Except.ok (prepare_croissant_builder CroissantBuilder
        download_and_prepare a.jsonld a.record_sets a.file_format a.out_dir
        a.mapping)

/-- The constructor calls recorded in a trace, with their arguments. -/
def constructEvents : List CollabEvent → List CroissantBuilderArgs
  | [] => []
  | CollabEvent.construct a :: es => a :: constructEvents es
  | CollabEvent.downloadAndPrepare :: es => constructEvents es

/-- Whether an outcome is the adapter's own `ValueError`. -/
def isValueError {ε : Type} : Except (PrepErr ε) Unit → Bool
  | Except.error (PrepErr.valueError _) => true
  | _ => false

/-- Whether a JSON value is a flat string-to-string object. -/
def isFlatStrMap : JsonValue → Bool
  | JsonValue.obj kvs =>
      kvs.all (fun kv =>
        match kv.2 with
        | JsonValue.str _ => true
        | _ => false)
  | _ => false

/-- Whether a string is accepted by `json.loads`. -/
def jsonParses (s : String) : Bool :=
  match jsonLoads s with
  | Except.ok _ => true
  | Except.error _ => false

/-- The empty string is not a JSON document. -/
theorem jsonLoads_empty : jsonLoads "" = Except.error "Expecting value" := rfl

/-- Characterisation of the constructor calls in a run of the adapter: none
when the mapping fails to parse, exactly one (with the normalised arguments)
otherwise. -/
theorem constructEvents_prepare {β ε : Type}
    (construct : CroissantBuilderArgs → Except ε β) (dap : β → Except ε Unit)
    (j : String) (rs : Option (List String)) (ff dd : String)
    (m : Option String) :
    constructEvents (prepare_croissant_builder construct dap j rs ff dd m).1
      = (match resolveMapping m with
         | Except.error _ => []
         | Except.ok mv => [builtArgs j rs ff dd mv]) := by
  unfold prepare_croissant_builder
  cases hm : resolveMapping m with
  | error msg => rfl
  | ok mv =>
    cases hc : construct (builtArgs j rs ff dd mv) with
    | error e => simp [constructEvents, hc]
    | ok b =>
      cases hd : dap b with
      | error e => simp [constructEvents, hc, hd]
      | ok u => simp [constructEvents, hc, hd]

/-- Once the mapping has resolved, the adapter can no longer raise its own
`ValueError`: any error in the outcome comes from the collaborator. -/
theorem isValueError_prepare_ok {β ε : Type}
    (construct : CroissantBuilderArgs → Except ε β) (dap : β → Except ε Unit)
    (j : String) (rs : Option (List String)) (ff dd : String)
    (m : Option String) (mv : PyVal)
    (hm : resolveMapping m = Except.ok mv) :
    isValueError (prepare_croissant_builder construct dap j rs ff dd m).2
      = false := by
  unfold prepare_croissant_builder
  rw [hm]
  cases hc : construct (builtArgs j rs ff dd mv) with
  | error e => simp [isValueError, hc]
  | ok b =>
    cases hd : dap b with
    | error e => simp [isValueError, hc, hd]
    | ok u => simp [isValueError, hc, hd]

/-- Claim C1 (amended): for every non-empty mapping string rejected by
`json.loads`, `prepare_croissant_builder` raises a `ValueError` whose message
embeds the original mapping string, with an empty collaborator trace — the
collaborator is neither constructed nor invoked. -/
theorem C1_nonempty_invalid_mapping_fails_before_collaborator {β ε : Type}
    (construct : CroissantBuilderArgs → Except ε β) (dap : β → Except ε Unit)
    (j : String) (rs : Option (List String)) (ff dd : String)
    (s err : String) (hne : s ≠ "")
    (hparse : jsonLoads s = Except.error err) :
    prepare_croissant_builder construct dap j rs ff dd (Option.some s)
      = ([], Except.error (PrepErr.valueError (mappingErrorMsg s))) := by
  unfold prepare_croissant_builder resolveMapping
  simp [hne, hparse]

/-- Witness for C1: the mapping string `{not valid}` is rejected before any
collaborator interaction, with the original text in the error message. -/
theorem C1_nonempty_invalid_mapping_fails_before_collaborator_witness :
    prepare_croissant_builder (fun _ => (Except.ok () : Except Unit Unit))
        (fun _ => Except.ok ()) "/tmp/d.json" Option.none "array_record"
        "/tmp/out" (Option.some "\x7bnot valid\x7d")
      = ([], Except.error (PrepErr.valueError
          (mappingErrorMsg "\x7bnot valid\x7d"))) :=
  C1_nonempty_invalid_mapping_fails_before_collaborator _ _ _ _ _ _
    "\x7bnot valid\x7d" "Expecting property name enclosed in double quotes"
    (by decide) (by rfl)

/-- Counterexample to C1 as stated: the empty string is not valid JSON, yet
the adapter raises no error for it — the truthiness test on line 122 skips
parsing, and the collaborator is constructed and invoked. -/
theorem C1_counterexample :
    jsonLoads "" = Except.error "Expecting value" ∧
    prepare_croissant_builder (fun _ => (Except.ok () : Except Unit Unit))
        (fun _ => Except.ok ()) "/tmp/d.json" Option.none "array_record"
        "/tmp/out" (Option.some "")
      = ([CollabEvent.construct (builtArgs "/tmp/d.json" Option.none
            "array_record" "/tmp/out" (PyVal.str "")),
          CollabEvent.downloadAndPrepare], Except.ok ()) :=
  ⟨rfl, rfl⟩

/-- Claim C2: when `record_sets` is omitted (`None`) or empty, every
constructor call the collaborator receives has `record_set_ids = None`,
never an empty sequence. -/
theorem C2_empty_record_sets_normalized_to_none {β ε : Type}
    (construct : CroissantBuilderArgs → Except ε β) (dap : β → Except ε Unit)
    (j : String) (rs : Option (List String)) (ff dd : String)
    (m : Option String)
    (h : rs = Option.none ∨ rs = Option.some []) :
    (constructEvents
        (prepare_croissant_builder construct dap j rs ff dd m).1).all
      (fun a => a.record_set_ids.isNone) = true := by
  have hrs : normRecordSets rs = Option.none := by
    rcases h with h | h <;> subst h <;> rfl
  rw [constructEvents_prepare]
  cases hm : resolveMapping m with
  | error e => rfl
  | ok mv => simp [builtArgs, hrs]

/-- Witness for C2 at `record_sets = []`, `mapping = None`. -/
theorem C2_empty_record_sets_normalized_to_none_witness :
    (constructEvents
        (prepare_croissant_builder (fun _ => (Except.ok () : Except Unit Unit))
          (fun _ => Except.ok ()) "/tmp/d.json" (Option.some [])
          "array_record" "/tmp/out" Option.none).1).all
      (fun a => a.record_set_ids.isNone) = true :=
  C2_empty_record_sets_normalized_to_none _ _ _ _ _ _ _ (Or.inr rfl)

/-- Claim C3 (amended): for every non-empty mapping string, the adapter
raises its `ValueError` exactly when `json.loads` rejects the string; the
shape of a successfully parsed value is never checked, so lists, numbers,
strings and nested objects pass through without error. -/
theorem C3_value_error_iff_parse_failure {β ε : Type}
    (construct : CroissantBuilderArgs → Except ε β) (dap : β → Except ε Unit)
    (j : String) (rs : Option (List String)) (ff dd : String)
    (s : String) (hne : s ≠ "") :
    isValueError
        (prepare_croissant_builder construct dap j rs ff dd (Option.some s)).2
      = !(jsonParses s) := by
  unfold jsonParses
  cases hj : jsonLoads s with
  | error e =>
    have hm : resolveMapping (Option.some s)
        = Except.error (mappingErrorMsg s) := by
      simp [resolveMapping, hne, hj]
    unfold prepare_croissant_builder
    rw [hm]
    rfl
  | ok v =>
    have hm : resolveMapping (Option.some s) = Except.ok (PyVal.json v) := by
      simp [resolveMapping, hne, hj]
    have hv := isValueError_prepare_ok construct dap j rs ff dd
      (Option.some s) (PyVal.json v) hm
    simp [hv]

/-- Witness for C3 (amended) at the valid document `null`. -/
theorem C3_value_error_iff_parse_failure_witness :
    isValueError
        (prepare_croissant_builder (fun _ => (Except.ok () : Except Unit Unit))
          (fun _ => Except.ok ()) "/tmp/d.json" Option.none "array_record"
          "/tmp/out" (Option.some "null")).2
      = !(jsonParses "null") :=
  C3_value_error_iff_parse_failure _ _ _ _ _ _ "null" (by decide)

/-- Counterexample to C3 as stated: `[1, 2]` is valid JSON but not a flat
string-to-string mapping, yet the adapter raises no error and the
collaborator is constructed (with the list) and invoked. -/
theorem C3_counterexample :
    jsonLoads "[1, 2]"
        = Except.ok (JsonValue.arr [JsonValue.num "1", JsonValue.num "2"]) ∧
    prepare_croissant_builder (fun _ => (Except.ok () : Except Unit Unit))
        (fun _ => Except.ok ()) "/tmp/d.json" Option.none "array_record"
        "/tmp/out" (Option.some "[1, 2]")
      = ([CollabEvent.construct (builtArgs "/tmp/d.json" Option.none
            "array_record" "/tmp/out" (PyVal.json (JsonValue.arr
              [JsonValue.num "1", JsonValue.num "2"]))),
          CollabEvent.downloadAndPrepare], Except.ok ()) :=
  ⟨rfl, rfl⟩

/-- Claim C4: a mapping string that parses to a flat string-to-string object
is forwarded to the collaborator exactly as parsed, unchanged. -/
theorem C4_flat_mapping_forwarded_unchanged {β ε : Type}
    (construct : CroissantBuilderArgs → Except ε β) (dap : β → Except ε Unit)
    (j : String) (rs : Option (List String)) (ff dd : String)
    (s : String) (v : JsonValue)
    (hparse : jsonLoads s = Except.ok v) (_hflat : isFlatStrMap v = true) :
    constructEvents
        (prepare_croissant_builder construct dap j rs ff dd (Option.some s)).1
      = [builtArgs j rs ff dd (PyVal.json v)] := by
  have hne : s ≠ "" := by
    intro h
    subst h
    rw [jsonLoads_empty] at hparse
    exact Except.noConfusion hparse
  have hm : resolveMapping (Option.some s) = Except.ok (PyVal.json v) := by
    simp [resolveMapping, hne, hparse]
  rw [constructEvents_prepare, hm]

/-- Witness for C4 at the spec's example mapping. -/
theorem C4_flat_mapping_forwarded_unchanged_witness :
    constructEvents
        (prepare_croissant_builder (fun _ => (Except.ok () : Except Unit Unit))
          (fun _ => Except.ok ()) "/tmp/d.json" Option.none "array_record"
          "/tmp/out" (Option.some "\x7b\"a.csv\": \"/home/u/a.csv\"\x7d")).1
      = [builtArgs "/tmp/d.json" Option.none "array_record" "/tmp/out"
          (PyVal.json (JsonValue.obj
            [("a.csv", JsonValue.str "/home/u/a.csv")]))] :=
  C4_flat_mapping_forwarded_unchanged _ _ _ _ _ _
    "\x7b\"a.csv\": \"/home/u/a.csv\"\x7d"
    (JsonValue.obj [("a.csv", JsonValue.str "/home/u/a.csv")])
    (by rfl) (by rfl)

/-- Claim C5: an error raised by the collaborator — in the constructor or in
`download_and_prepare` — propagates to the caller with its payload unchanged;
the adapter never catches, wraps, retries or suppresses it. -/
theorem C5_collaborator_errors_propagate_unchanged {β ε : Type}
    (construct : CroissantBuilderArgs → Except ε β) (dap : β → Except ε Unit)
    (j : String) (rs : Option (List String)) (ff dd : String)
    (m : Option String) (mv : PyVal) (e : ε)
    (hm : resolveMapping m = Except.ok mv)
    (hfail : construct (builtArgs j rs ff dd mv) = Except.error e ∨
      ∃ b, construct (builtArgs j rs ff dd mv) = Except.ok b ∧
        dap b = Except.error e) :
    (prepare_croissant_builder construct dap j rs ff dd m).2
      = Except.error (PrepErr.collab e) := by
  unfold prepare_croissant_builder
  rw [hm]
  rcases hfail with h | ⟨b, hb, hd⟩
  · simp [h]
  · simp [hb, hd]

/-- Witness for C5: a constructor that raises `7` yields exactly that error. -/
theorem C5_collaborator_errors_propagate_unchanged_witness :
    (prepare_croissant_builder (fun _ => (Except.error 7 : Except Nat Unit))
        (fun _ => Except.ok ()) "/tmp/d.json" Option.none "array_record"
        "/tmp/out" Option.none).2
      = Except.error (PrepErr.collab 7) :=
  C5_collaborator_errors_propagate_unchanged _ _ _ _ _ _ _ PyVal.none 7
    rfl (Or.inl rfl)

/-- Claim C6: on the spec's concrete valid inputs the collaborator is
constructed exactly once (with `record_set_ids = None` and `mapping = None`),
`download_and_prepare` is invoked exactly once, and the adapter completes
normally with no return value. -/
theorem C6_single_construct_single_prepare {β ε : Type}
    (construct : CroissantBuilderArgs → Except ε β) (dap : β → Except ε Unit)
    (ff : String) (b : β)
    (hc : construct (builtArgs "/tmp/d.json" (Option.some []) ff "/tmp/out"
        PyVal.none) = Except.ok b)
    (hd : dap b = Except.ok ()) :
    prepare_croissant_builder construct dap "/tmp/d.json" (Option.some []) ff
        "/tmp/out" Option.none
      = ([CollabEvent.construct (builtArgs "/tmp/d.json" (Option.some []) ff
            "/tmp/out" PyVal.none),
          CollabEvent.downloadAndPrepare], Except.ok ()) ∧
    (builtArgs "/tmp/d.json" (Option.some []) ff "/tmp/out"
        PyVal.none).record_set_ids = Option.none ∧
    (builtArgs "/tmp/d.json" (Option.some []) ff "/tmp/out"
        PyVal.none).mapping = PyVal.none := by
  refine ⟨?_, rfl, rfl⟩
  unfold prepare_croissant_builder
  simp [resolveMapping, hc, hd]

/-- Witness for C6 with a collaborator that succeeds. -/
theorem C6_single_construct_single_prepare_witness :
    prepare_croissant_builder (fun _ => (Except.ok () : Except Unit Unit))
        (fun _ => Except.ok ()) "/tmp/d.json" (Option.some []) "array_record"
        "/tmp/out" Option.none
      = ([CollabEvent.construct (builtArgs "/tmp/d.json" (Option.some [])
            "array_record" "/tmp/out" PyVal.none),
          CollabEvent.downloadAndPrepare], Except.ok ()) ∧
    (builtArgs "/tmp/d.json" (Option.some []) "array_record" "/tmp/out"
        PyVal.none).record_set_ids = Option.none ∧
    (builtArgs "/tmp/d.json" (Option.some []) "array_record" "/tmp/out"
        PyVal.none).mapping = PyVal.none :=
  C6_single_construct_single_prepare _ _ "array_record" () rfl rfl

/-- Claim C7: the argparse `choices` gate on `--file_format` rejects any
value outside the enumeration before `prepare_croissant_builder` runs, and
forwards any value inside it untouched as `out_file_format`. -/
theorem C7_file_format_choices_gate {β ε : Type}
    (construct : CroissantBuilderArgs → Except ε β) (dap : β → Except ε Unit)
    (choices : List String) (j s : String) (rs : Option (List String))
    (dd : String) (m : Option String) :
    (s ∉ choices →
      runBuildCroissant construct dap choices j s rs dd m
        = Except.error ("argument --file_format: invalid choice: " ++ s)) ∧
    (s ∈ choices →
      runBuildCroissant construct dap choices j s rs dd m
        = Except.ok (prepare_croissant_builder construct dap j rs s dd m)) := by
  constructor <;> intro h <;>
    simp [runBuildCroissant, parseBuildCroissantArgs, h]

/-- Witness for C7: `csv` is rejected by the gate, `array_record` is
forwarded. -/
theorem C7_file_format_choices_gate_witness :
    runBuildCroissant (fun _ => (Except.ok () : Except Unit Unit))
        (fun _ => Except.ok ()) ["array_record"] "/tmp/d.json" "csv"
        Option.none "/tmp/out" Option.none
      = Except.error ("argument --file_format: invalid choice: " ++ "csv") ∧
    runBuildCroissant (fun _ => (Except.ok () : Except Unit Unit))
        (fun _ => Except.ok ()) ["array_record"] "/tmp/d.json" "array_record"
        Option.none "/tmp/out" Option.none
      = Except.ok (prepare_croissant_builder
          (fun _ => (Except.ok () : Except Unit Unit)) (fun _ => Except.ok ())
          "/tmp/d.json" Option.none "array_record" "/tmp/out" Option.none) :=
  ⟨(C7_file_format_choices_gate _ _ _ _ _ _ _ _).1 (by decide),
   (C7_file_format_choices_gate _ _ _ _ _ _ _ _).2 (by decide)⟩

/-- Claim C8: the empty mapping string is falsy, so no parse is attempted and
no error raised; the collaborator is constructed with the empty string
itself. -/
theorem C8_empty_string_mapping_passed_verbatim {β ε : Type}
    (construct : CroissantBuilderArgs → Except ε β) (dap : β → Except ε Unit)
    (j : String) (rs : Option (List String)) (ff dd : String) :
    resolveMapping (Option.some "") = Except.ok (PyVal.str "") ∧
    constructEvents
        (prepare_croissant_builder construct dap j rs ff dd (Option.some "")).1
      = [builtArgs j rs ff dd (PyVal.str "")] ∧
    isValueError
        (prepare_croissant_builder construct dap j rs ff dd (Option.some "")).2
      = false := by
  refine ⟨rfl, ?_, ?_⟩
  · rw [constructEvents_prepare]
    rfl
  · exact isValueError_prepare_ok construct dap j rs ff dd _ _ rfl

/-- Claim C9: a non-empty `record_sets` sequence reaches the collaborator
exactly as given — same elements, same order, no filtering or
deduplication. -/
theorem C9_record_sets_forwarded_exactly {β ε : Type}
    (construct : CroissantBuilderArgs → Except ε β) (dap : β → Except ε Unit)
    (j : String) (l : List String) (ff dd : String) (m : Option String)
    (hne : l ≠ []) :
    (constructEvents
        (prepare_croissant_builder construct dap j (Option.some l) ff dd m).1).all
      (fun a => a.record_set_ids == Option.some l) = true := by
  have hrs : normRecordSets (Option.some l) = Option.some l := by
    cases l with
    | nil => exact absurd rfl hne
    | cons x xs => rfl
  rw [constructEvents_prepare]
  cases hm : resolveMapping m with
  | error e => rfl
  | ok mv => simp [builtArgs, hrs]

/-- Witness for C9 at `record_sets = ["r1", "r2"]`. -/
theorem C9_record_sets_forwarded_exactly_witness :
    (constructEvents
        (prepare_croissant_builder (fun _ => (Except.ok () : Except Unit Unit))
          (fun _ => Except.ok ()) "/tmp/d.json" (Option.some ["r1", "r2"])
          "array_record" "/tmp/out" Option.none).1).all
      (fun a => a.record_set_ids == Option.some ["r1", "r2"]) = true :=
  C9_record_sets_forwarded_exactly _ _ _ ["r1", "r2"] _ _ _ (by decide)

/-- Claim C10: any mapping string accepted by `json.loads` — whatever the
shape of the parsed value — is forwarded as-is to the collaborator, with no
error raised by the adapter. -/
theorem C10_valid_json_any_shape_forwarded {β ε : Type}
    (construct : CroissantBuilderArgs → Except ε β) (dap : β → Except ε Unit)
    (j : String) (rs : Option (List String)) (ff dd : String)
    (s : String) (v : JsonValue)
    (hparse : jsonLoads s = Except.ok v) :
    constructEvents
        (prepare_croissant_builder construct dap j rs ff dd (Option.some s)).1
      = [builtArgs j rs ff dd (PyVal.json v)] ∧
    isValueError
        (prepare_croissant_builder construct dap j rs ff dd (Option.some s)).2
      = false := by
  have hne : s ≠ "" := by
    intro h
    subst h
    rw [jsonLoads_empty] at hparse
    exact Except.noConfusion hparse
  have hm : resolveMapping (Option.some s) = Except.ok (PyVal.json v) := by
    simp [resolveMapping, hne, hparse]
  exact ⟨by rw [constructEvents_prepare, hm],
    isValueError_prepare_ok construct dap j rs ff dd _ _ hm⟩

/-- Witness for C10 at the bare number `42`. -/
theorem C10_valid_json_any_shape_forwarded_witness :
    constructEvents
        (prepare_croissant_builder (fun _ => (Except.ok () : Except Unit Unit))
          (fun _ => Except.ok ()) "/tmp/d.json" Option.none "array_record"
          "/tmp/out" (Option.some "42")).1
      = [builtArgs "/tmp/d.json" Option.none "array_record" "/tmp/out"
          (PyVal.json (JsonValue.num "42"))] ∧
    isValueError
        (prepare_croissant_builder (fun _ => (Except.ok () : Except Unit Unit))
          (fun _ => Except.ok ()) "/tmp/d.json" Option.none "array_record"
          "/tmp/out" (Option.some "42")).2
      = false :=
  C10_valid_json_any_shape_forwarded _ _ _ _ _ _ "42" (JsonValue.num "42")
    (by rfl)

end Croissant
